import Mathlib

/-!
Shallow embedding of the certificate generator (src/tasks.py, src/utils.py):
the request dictionary and `validate_data`, the `text_escape` filter-escaping
chain, the `generate_certificate` task body (external tool invocations
abstracted into an environment of outcomes, the filesystem into flags for the
files the task owns), the two PDF-conversion command builders, and the two
cleanup routines `cleanup_old_certificates` (src/tasks.py) and
`cleanup_temp_files` (src/utils.py).
-/

deriving instance DecidableEq for Except

/-- A Python value as it occurs in a certificate-request dict: a string or an
integer (the optional `user_id` / `test_id` fields are integers). -/
inductive PyVal where
  | str (s : String)
  | int (n : Int)
deriving DecidableEq

/-- A Python dict with string keys, as an association list (first binding of a
key is its value; Python dicts have unique keys). -/
abbrev PyDict := List (String × PyVal)

/-- Python truthiness of a value: the empty string and 0 are falsy. -/
def PyVal.truthy : PyVal → Bool
  | .str s => s ≠ ""
  | .int n => n ≠ 0

/-- Dict lookup (`data[key]` / `key in data`). -/
def pyLookup : PyDict → String → Option PyVal
  | [], _ => none
  | (k, v) :: rest, key => if k = key then some v else pyLookup rest key

/-- src/tasks.py REQUIRED_KEYS. -/
def REQUIRED_KEYS : List String :=
  ["user_name", "college", "certificate_id", "issued_at", "topic"]

/-- The Python exceptions the task raises or propagates. -/
inductive PyExc where
  | valueError (msg : String)
  | typeError (msg : String)
  | keyError (msg : String)
  | fileNotFound (msg : String)
  | certGenError (msg : String)
deriving DecidableEq

/-- Python `str(e)` for the exceptions above: the message. -/
def pyExcStr : PyExc → String
  | .valueError m => m
  | .typeError m => m
  | .keyError m => m
  | .fileNotFound m => m
  | .certGenError m => m

/-- `isinstance(v, str) and len(v) <= n` — a check `validate_data` uses in the
negated form `not isinstance(v, str) or len(v) > n`. -/
def isStrLe (v : PyVal) (n : Nat) : Bool :=
  match v with
  | .str s => s.length ≤ n
  | .int _ => false

/-- Numeric value of an ASCII digit character. -/
def digitVal (c : Char) : Nat := c.toNat - 48

/-- Two-digit decimal value. -/
def d2 (a b : Char) : Nat := digitVal a * 10 + digitVal b

/-- The `YYYY-MM-DD` shape with month 1..12 and day 1..31. -/
def dateListOk : List Char → Bool
  | [y1, y2, y3, y4, s1, mo1, mo2, s2, da1, da2] =>
    y1.isDigit && y2.isDigit && y3.isDigit && y4.isDigit &&
    s1 = '-' && mo1.isDigit && mo2.isDigit && s2 = '-' &&
    da1.isDigit && da2.isDigit &&
    decide (1 ≤ d2 mo1 mo2) && decide (d2 mo1 mo2 ≤ 12) &&
    decide (1 ≤ d2 da1 da2) && decide (d2 da1 da2 ≤ 31)
  | _ => false

/-- The `HH:MM` shape. -/
def timeHMOk : List Char → Bool
  | [h1, h2, c1, m1, m2] =>
    h1.isDigit && h2.isDigit && c1 = ':' && m1.isDigit && m2.isDigit &&
    decide (d2 h1 h2 ≤ 23) && decide (d2 m1 m2 ≤ 59)
  | _ => false

/-- The `HH:MM:SS` shape. -/
def timeHMSOk : List Char → Bool
  | [h1, h2, c1, m1, m2, c2, s1, s2] =>
    timeHMOk [h1, h2, c1, m1, m2] && c2 = ':' && s1.isDigit && s2.isDigit &&
    decide (d2 s1 s2 ≤ 59)
  | _ => false

/-- Models the standard-library `datetime.fromisoformat` check called by
`validate_data` (external library code, not part of this repository):
accepts `YYYY-MM-DD`, optionally followed by a one-character separator and
`HH:MM` or `HH:MM:SS`. Fractional seconds, timezone offsets and exact
calendar day-of-month bounds are not modelled; every concrete date any
theorem below evaluates it on is of these shapes and is accepted by the
library as well. -/
def fromisoformat_ok (s : String) : Bool :=
  let cs := s.toList
  if cs.length = 10 then dateListOk cs
  else if cs.length = 16 then dateListOk (cs.take 10) && timeHMOk (cs.drop 11)
  else if cs.length = 19 then dateListOk (cs.take 10) && timeHMSOk (cs.drop 11)
  else false

/-- `key not in data or not data[key]` for one required key. -/
def missingOrEmpty (data : PyDict) (k : String) : Bool :=
  match pyLookup data k with
  | none => true
  | some v => !v.truthy

/-- The list comprehension `[key for key in REQUIRED_KEYS if key not in data
or not data[key]]` of `validate_data`. -/
def missingFields (data : PyDict) : List String :=
  REQUIRED_KEYS.filter (fun k => missingOrEmpty data k)

/-- src/tasks.py `validate_data`: the missing/empty check over all required
keys at once, then per-field type/length checks, then the `issued_at` ISO
parse; returns the dict itself on success. A `KeyError` case is unreachable
after the missing check but kept for totality of the dict access, and a
non-string `issued_at` raises the library `TypeError`, which the `except
ValueError` in the source does not catch. -/
def validate_data (data : PyDict) : Except PyExc PyDict :=
  if (missingFields data).isEmpty then
    match pyLookup data "user_name" with
    | none => .error (.keyError "user_name")
    | some v1 =>
      if !isStrLe v1 100 then
        .error (.valueError "user_name must be a string with max 100 characters")
      else
        match pyLookup data "college" with
        | none => .error (.keyError "college")
        | some v2 =>
          if !isStrLe v2 200 then
            .error (.valueError "college must be a string with max 200 characters")
          else
            match pyLookup data "topic" with
            | none => .error (.keyError "topic")
            | some v3 =>
              if !isStrLe v3 150 then
                .error (.valueError "topic must be a string with max 150 characters")
              else
                match pyLookup data "issued_at" with
                | none => .error (.keyError "issued_at")
                | some (.int _) =>
                  .error (.typeError "fromisoformat: argument must be str")
                | some (.str s) =>
                  if fromisoformat_ok s then .ok data
                  else .error (.valueError "issued_at must be in ISO format")
  else
    .error (.valueError
      ("Missing or empty required fields: " ++
        String.intercalate ", " (missingFields data)))

/-- The character set of src/utils.py `validate_certificate_id`. -/
def allowedIdChars : List Char :=
  "ABCDEFGHIJKLMNOPQRSTUVWXYZ0123456789-_".toList

/-- src/utils.py `validate_certificate_id`: falsy or shorter than 5 rejects;
otherwise every character of the upper-cased id must be in the allowed set. -/
def validate_certificate_id (cid : String) : Bool :=
  if cid = "" ∨ cid.length < 5 then false
  else (cid.toList.map Char.toUpper).all (fun c => decide (c ∈ allowedIdChars))

/-- Python `str.replace(old, new)` for a one-character pattern: every
occurrence of `old` becomes `rep`. -/
def pyReplaceChar (old : Char) (rep : List Char) : List Char → List Char
  | [] => []
  | c :: cs => (if c = old then rep else [c]) ++ pyReplaceChar old rep cs

/-- src/tasks.py `text_escape` on the character list: the eight `.replace`
passes in source order — backslash first, then colon, apostrophe, double
quote, brackets, comma, semicolon. -/
def text_escape_list (l : List Char) : List Char :=
  pyReplaceChar ';' ['\\', ';']
    (pyReplaceChar ',' ['\\', ',']
      (pyReplaceChar ']' ['\\', ']']
        (pyReplaceChar '[' ['\\', '[']
          (pyReplaceChar '"' ['\\', '"']
            (pyReplaceChar '\'' ['\\', '\'']
              (pyReplaceChar ':' ['\\', ':']
                (pyReplaceChar '\\' ['\\', '\\'] l)))))))

/-- src/tasks.py `text_escape`. -/
def text_escape (s : String) : String :=
  String.mk (text_escape_list s.toList)

/-- The characters `text_escape` escapes. -/
def escapedChars : List Char :=
  ['\\', ':', '\'', '"', '[', ']', ',', ';']

/-- Single-pass escaping: each escaped character gains exactly one backslash
prefix, every other character is untouched. -/
def escChar (c : Char) : List Char :=
  if c ∈ escapedChars then ['\\', c] else [c]

/-- `escChar` applied across a character list. -/
def escapeAll : List Char → List Char
  | [] => []
  | c :: cs => escChar c ++ escapeAll cs

/-- Outcome of one external-process invocation (`subprocess.run(..., check=True)`):
success, non-zero exit (`CalledProcessError`), or missing executable
(`FileNotFoundError`). -/
inductive ToolResult where
  | ok
  | exitError
  | notFound
deriving DecidableEq

/-- The environment of one `generate_certificate` attempt: whether the template
asset exists and what each external invocation would do. -/
structure Env where
  templateExists : Bool
  renderOk : Bool
  convertRes : ToolResult
  ffmpegPdfRes : ToolResult
deriving DecidableEq

/-- The files owned by or produced for one job: the temporary QR image, the
temporary intermediate raster, and the output PDF. -/
structure FS where
  qrFile : Bool
  tempImg : Bool
  pdf : Bool
deriving DecidableEq

/-- src/tasks.py lines 198-229, the PDF-conversion fallback: method 1
(`convert`, ImageMagick) catches both `CalledProcessError` and
`FileNotFoundError` and falls through; method 2 (`ffmpeg`) catches only
`CalledProcessError` — which it turns into the fatal
`CertificateGenerationError` — while a `FileNotFoundError` from it
propagates uncaught. Returns which method succeeded. -/
def convertStep (convertRes ffmpegPdfRes : ToolResult) : Except PyExc Nat :=
  match convertRes with
  | .ok => .ok 1
  | _ =>
    match ffmpegPdfRes with
    | .ok => .ok 2
    | .exitError => .error (.certGenError "All PDF conversion methods failed")
    | .notFound => .error (.fileNotFound "ffmpeg")

/-- The ImageMagick command of conversion method 1 (src/tasks.py lines 203-209). -/
def img_to_pdf_cmd (tempImgPath pdfOutputPath : String) : List String :=
  ["convert", tempImgPath,
   "-density", "200",
   "-quality", "85",
   "-compress", "jpeg",
   pdfOutputPath]

/-- The FFmpeg command of conversion method 2 (src/tasks.py lines 219-224). -/
def ffmpeg_pdf_cmd (tempImgPath pdfOutputPath : String) : List String :=
  ["ffmpeg", "-y",
   "-i", tempImgPath,
   "-f", "pdf",
   pdfOutputPath]

/-- Python `str(value)` for the values a dict can hold. -/
def pyStr : PyVal → String
  | .str s => s
  | .int n => toString n

/-- `data['certificate_id']` rendered into the output path. -/
def certIdOf (data : PyDict) : String :=
  pyStr ((pyLookup data "certificate_id").getD (.str ""))

/-- The body of the `try` block of src/tasks.py `generate_certificate`
(lines 132-245): validate, check the template asset, write the QR image,
render the intermediate raster with FFmpeg, convert to PDF through
`convertStep`, and — only after a successful conversion — delete the two
temporary files and return the output path. An exception at any point leaves
the filesystem as it stood. The external invocations are abstracted into
`Env`; a failed invocation is modelled as not having produced its output
file. -/
def generate_certificate_body (env : Env) (data : PyDict) (fs : FS) :
    Except PyExc String × FS :=
  match validate_data data with
  | .error e => (.error e, fs)
  | .ok data1 =>
    if !env.templateExists then
      (.error (.fileNotFound "Template not found"), fs)
    else
      let fs1 := { fs with qrFile := true }
      if !env.renderOk then
        (.error (.certGenError "Image generation failed"), fs1)
      else
        let fs2 := { fs1 with tempImg := true }
        match convertStep env.convertRes env.ffmpegPdfRes with
        | .error e => (.error e, fs2)
        | .ok _ =>
          let fs3 := { fs2 with pdf := true }
          let fs4 := { fs3 with tempImg := false, qrFile := false }
          (.ok ("certificates/" ++ certIdOf data1 ++ ".pdf"), fs4)

/-- The Celery task option `max_retries=3` of `generate_certificate`. -/
def max_retries : Nat := 3

/-- What one task invocation ends in: a returned path, a `self.retry(...)`
re-enqueue, or the terminal wrapped `CertificateGenerationError`. -/
inductive TaskOutcome where
  | success (path : String)
  | retryLater (exc : PyExc)
  | failed (msg : String)
deriving DecidableEq

/-- src/tasks.py `generate_certificate`, one Celery invocation: run the body;
on any exception, retry (`raise self.retry(countdown=60, exc=e)`) while
`self.request.retries < self.max_retries`, else raise the terminal
`CertificateGenerationError` wrapping the last error. `retries` is
`self.request.retries`, the number of earlier failed attempts. The except
block performs no file cleanup. -/
def generate_certificate (retries : Nat) (env : Env) (data : PyDict) (fs : FS) :
    TaskOutcome × FS :=
  match generate_certificate_body env data fs with
  | (.ok p, fs1) => (.success p, fs1)
  | (.error e, fs1) =>
    if retries < max_retries then
      (.retryLater e, fs1)
    else
      (.failed ("Failed to generate certificate after 3 attempts: " ++ pyExcStr e), fs1)

/-- A file in one of the stores: its name, its `st_mtime` in seconds, its
`st_size` in bytes, and whether it is a regular file (checked only by
`cleanup_temp_files`). -/
structure StoredFile where
  name : String
  mtime : Int
  size : Nat
  isFile : Bool
deriving DecidableEq

/-- The statistics dict `cleanup_old_certificates` returns. The source reports
megabytes rounded to two decimals; the model counts the exact bytes freed. -/
structure CleanupStats where
  files_removed : Nat
  space_freed_bytes : Nat
deriving DecidableEq

/-- The message of the `OSError` a failing `unlink` raises. -/
def oserrorMsg (name : String) : String := "OSError: " ++ name

/-- The certificate-store loop of `cleanup_old_certificates` (src/tasks.py
lines 274-280): for each file of the `*.pdf` glob, if its mtime predates the
cutoff, read its size and `unlink` it — with no try/except, so a failing
deletion propagates, aborting the loop with later files untouched.
`delOk` says whether deleting a given file succeeds. Returns the raised
error or the (count, bytes) accumulators, with the surviving files. -/
def sweepCerts (delOk : String → Bool) (cutoff : Int) :
    List StoredFile → Except String (Nat × Nat) × List StoredFile
  | [] => (.ok (0, 0), [])
  | f :: fs =>
    if f.mtime < cutoff then
      if delOk f.name then
        match sweepCerts delOk cutoff fs with
        | (.ok (n, b), rem) => (.ok (n + 1, b + f.size), rem)
        | (.error e, rem) => (.error e, rem)
      else (.error (oserrorMsg f.name), f :: fs)
    else
      match sweepCerts delOk cutoff fs with
      | (r, rem) => (r, f :: rem)

/-- The temp-store loop of `cleanup_old_certificates` (src/tasks.py lines
283-286): same cutoff, same bare `unlink`, no counting. -/
def sweepTemp (delOk : String → Bool) (cutoff : Int) :
    List StoredFile → Except String Unit × List StoredFile
  | [] => (.ok (), [])
  | f :: fs =>
    if f.mtime < cutoff then
      if delOk f.name then sweepTemp delOk cutoff fs
      else (.error (oserrorMsg f.name), f :: fs)
    else
      match sweepTemp delOk cutoff fs with
      | (r, rem) => (r, f :: rem)

/-- src/tasks.py `cleanup_old_certificates`: cutoff is `now - days_old` days;
sweep the certificate store (the `*.pdf` glob, given as `certFiles`) counting
removals and bytes, then the temp store (`tempFiles`); an uncaught deletion
error anywhere aborts the task with no statistics returned. Times are seconds
since the epoch. -/
def cleanup_old_certificates (delOk : String → Bool) (now : Int) (days_old : Int)
    (certFiles tempFiles : List StoredFile) :
    Except String CleanupStats × List StoredFile × List StoredFile :=
  match sweepCerts delOk (now - days_old * 86400) certFiles with
  | (.error e, remC) => (.error e, remC, tempFiles)
  | (.ok (n, b), remC) =>
    match sweepTemp delOk (now - days_old * 86400) tempFiles with
    | (.error e, remT) => (.error e, remC, remT)
    | (.ok _, remT) => (.ok ⟨n, b⟩, remC, remT)

/-- src/utils.py `cleanup_temp_files`: cutoff is `now - max_age_hours` hours;
deletes each regular file older than the cutoff, and a failing `unlink` is
swallowed (`except OSError: pass`), so the sweep always completes and every
other eligible file is still deleted. -/
def cleanup_temp_files (delOk : String → Bool) (now : Int) (max_age_hours : Int) :
    List StoredFile → List StoredFile
  | [] => []
  | f :: fs =>
    if f.isFile && decide (f.mtime < now - max_age_hours * 3600) then
      if delOk f.name then cleanup_temp_files delOk now max_age_hours fs
      else f :: cleanup_temp_files delOk now max_age_hours fs
    else f :: cleanup_temp_files delOk now max_age_hours fs

/-- Whether an exception-or-value result is a value. -/
def exceptOk {ε α : Type} : Except ε α → Bool
  | .ok _ => true
  | .error _ => false

/-- Claim-side character class: alphanumeric, hyphen or underscore. -/
def isIdChar (c : Char) : Bool := c.isAlphanum || c == '-' || c == '_'

/-- Sum of the byte sizes of a list of files. -/
def sumBytes : List StoredFile → Nat
  | [] => 0
  | f :: fs => f.size + sumBytes fs

/-- A well-formed request, as `producer.py` and the test suite build one. -/
def validData : PyDict :=
  [("user_name", PyVal.str "Test User"), ("college", PyVal.str "Test U"),
   ("certificate_id", PyVal.str "TEST-0001"),
   ("issued_at", PyVal.str "2025-06-10T14:30:00"),
   ("topic", PyVal.str "Testing")]

/-- A request whose `certificate_id` is 2 characters long — invalid per
`validate_certificate_id` — but whose other fields are well-formed. -/
def badIdData : PyDict :=
  [("user_name", PyVal.str "Test User"), ("college", PyVal.str "Test U"),
   ("certificate_id", PyVal.str "ab"),
   ("issued_at", PyVal.str "2025-06-10T14:30:00"),
   ("topic", PyVal.str "Testing")]

/-- A request missing four of the five required fields. -/
def invalidData : PyDict := [("user_name", PyVal.str "Test User")]

/-- Environment in which every external invocation succeeds. -/
def envOk : Env := ⟨true, true, ToolResult.ok, ToolResult.ok⟩

/-- Environment in which rendering succeeds but both PDF-conversion
strategies exit non-zero. -/
def envConvFail : Env := ⟨true, true, ToolResult.exitError, ToolResult.exitError⟩

/-- Empty filesystem at the start of a job. -/
def fs0 : FS := ⟨false, false, false⟩

/-- Filesystem after a successful job: only the output PDF. -/
def fsDone : FS := ⟨false, false, true⟩

/-- Certificate aged 10 days when `now` is day 100 (in seconds). -/
def fileA : StoredFile := ⟨"a.pdf", 7776000, 100, true⟩

/-- Certificate aged 40 days when `now` is day 100. -/
def fileB : StoredFile := ⟨"b.pdf", 5184000, 200, true⟩

/-- A second certificate aged 40 days when `now` is day 100. -/
def fileC : StoredFile := ⟨"c.pdf", 5184000, 300, true⟩

/-! Theorems. -/

lemma pyReplaceChar_append (old : Char) (rep : List Char) (xs ys : List Char) :
    pyReplaceChar old rep (xs ++ ys) =
      pyReplaceChar old rep xs ++ pyReplaceChar old rep ys := by
  induction xs with
  | nil => simp [pyReplaceChar]
  | cons c cs ih => simp [pyReplaceChar, ih]

lemma text_escape_list_append (xs ys : List Char) :
    text_escape_list (xs ++ ys) = text_escape_list xs ++ text_escape_list ys := by
  simp [text_escape_list, pyReplaceChar_append]

lemma text_escape_list_single (c : Char) : text_escape_list [c] = escChar c := by
  by_cases h1 : c = '\\'
  · subst h1; decide
  by_cases h2 : c = ':'
  · subst h2; decide
  by_cases h3 : c = '\''
  · subst h3; decide
  by_cases h4 : c = '"'
  · subst h4; decide
  by_cases h5 : c = '['
  · subst h5; decide
  by_cases h6 : c = ']'
  · subst h6; decide
  by_cases h7 : c = ','
  · subst h7; decide
  by_cases h8 : c = ';'
  · subst h8; decide
  simp [text_escape_list, pyReplaceChar, escChar, escapedChars,
    h1, h2, h3, h4, h5, h6, h7, h8]

lemma text_escape_list_eq_escapeAll (l : List Char) :
    text_escape_list l = escapeAll l := by
  induction l with
  | nil => rfl
  | cons c cs ih =>
    have hsplit : c :: cs = [c] ++ cs := rfl
    rw [hsplit, text_escape_list_append, text_escape_list_single, ih]
    rfl

/-- C8: `text_escape` escapes backslash first and then the other special
characters, each by prefixing one backslash; because the backslash pass comes
first, backslashes introduced by the later substitutions are never
re-escaped, so the whole chain equals a single pass that maps each special
character `c` to `\c` and leaves every other character alone. In particular
escaping "John's Certificate" yields "John\'s Certificate". -/
theorem text_escape_single_pass :
    (∀ s : String, text_escape s = String.mk (escapeAll s.toList)) ∧
    text_escape "John's Certificate" = "John\\'s Certificate" := by
  constructor
  · intro s
    unfold text_escape
    rw [text_escape_list_eq_escapeAll]
  · decide

/-- C3 counterexample: when both conversion strategies fail with
tool-not-found, every strategy has failed and yet the error raised is the
uncaught `FileNotFoundError` from the second `subprocess.run`, not the fatal
`CertificateGenerationError` the claim requires. -/
theorem conversion_notfound_cex :
    convertStep ToolResult.notFound ToolResult.notFound =
      Except.error (PyExc.fileNotFound "ffmpeg") ∧
    convertStep ToolResult.notFound ToolResult.notFound ≠
      Except.error (PyExc.certGenError "All PDF conversion methods failed") := by
  decide

/-- C3 as amended: the first strategy's failure of either kind (non-zero exit
or tool-not-found) falls through to the second strategy, and a first-strategy
success wins immediately; if the second strategy exits non-zero the fatal
`CertificateGenerationError` is raised, but if the second strategy's tool is
not found the `FileNotFoundError` propagates uncaught instead of becoming a
`GenerationError`. -/
theorem conversion_fallback_policy :
    (∀ r2 : ToolResult, convertStep ToolResult.ok r2 = Except.ok 1) ∧
    (∀ r1 : ToolResult, r1 ≠ ToolResult.ok →
      convertStep r1 ToolResult.ok = Except.ok 2 ∧
      convertStep r1 ToolResult.exitError =
        Except.error (PyExc.certGenError "All PDF conversion methods failed") ∧
      convertStep r1 ToolResult.notFound =
        Except.error (PyExc.fileNotFound "ffmpeg")) := by
  constructor
  · intro r2; rfl
  · intro r1 h
    cases r1 with
    | ok => exact absurd rfl h
    | exitError => exact ⟨rfl, rfl, rfl⟩
    | notFound => exact ⟨rfl, rfl, rfl⟩

/-- C3 witness: both strategies exiting non-zero yields the fatal
`CertificateGenerationError`. -/
theorem conversion_fallback_policy_witness :
    convertStep ToolResult.exitError ToolResult.exitError =
      Except.error (PyExc.certGenError "All PDF conversion methods failed") :=
  (conversion_fallback_policy.2 ToolResult.exitError (by decide)).2.1

/-- C1 counterexample: with a valid request and both conversion strategies
exiting non-zero, a failed attempt (retries = 0) is re-enqueued and the
terminal failure (retries = 3) raises the wrapped error, and in both cases
the QR image and the intermediate raster are still on disk: the except block
of `generate_certificate` performs no cleanup. -/
theorem cleanup_skipped_on_failure_cex :
    generate_certificate 0 envConvFail validData fs0 =
      (TaskOutcome.retryLater (PyExc.certGenError "All PDF conversion methods failed"),
       ⟨true, true, false⟩) ∧
    generate_certificate 3 envConvFail validData fs0 =
      (TaskOutcome.failed
        "Failed to generate certificate after 3 attempts: All PDF conversion methods failed",
       ⟨true, true, false⟩) := by
  decide

lemma body_success_cleans (env : Env) (data : PyDict) (fs : FS) (q : String)
    (fs2 : FS) (h : generate_certificate_body env data fs = (Except.ok q, fs2)) :
    fs2.tempImg = false ∧ fs2.qrFile = false ∧ fs2.pdf = true := by
  unfold generate_certificate_body at h
  repeat' split at h
  all_goals simp_all
  obtain ⟨-, h2⟩ := h
  subst h2
  exact ⟨rfl, rfl, rfl⟩

/-- C1 as amended: the temporary files are deleted only on the success path —
whenever `generate_certificate` returns a path, the intermediate raster and
the QR image are gone and the output PDF exists. On failed attempts and on
the terminal FAILED path no cleanup runs (see the counterexample). -/
theorem cleanup_on_success_path :
    ∀ (retries : Nat) (env : Env) (data : PyDict) (fs : FS) (p : String) (fs1 : FS),
      generate_certificate retries env data fs = (TaskOutcome.success p, fs1) →
      fs1.tempImg = false ∧ fs1.qrFile = false ∧ fs1.pdf = true := by
  intro retries env data fs p fs1 h
  unfold generate_certificate at h
  split at h
  next q fs2 hb =>
    have hc := body_success_cleans env data fs q fs2 hb
    simp only [Prod.mk.injEq, TaskOutcome.success.injEq] at h
    rw [← h.2]
    exact hc
  next e fs2 hb =>
    split at h <;> simp_all

/-- C1 witness: a fully successful job ends with both temporary files deleted
and the PDF present. -/
theorem cleanup_on_success_path_witness :
    fsDone.tempImg = false ∧ fsDone.qrFile = false ∧ fsDone.pdf = true :=
  cleanup_on_success_path 0 envOk validData fs0 "certificates/TEST-0001.pdf" fsDone
    (by decide)

/-- C2 counterexample: a request that fails validation (four required fields
missing) is re-enqueued by the generic retry handler on its first attempt —
the validation error is retried, not surfaced immediately as a terminal
failure. -/
theorem validation_error_retried_cex :
    generate_certificate 0 envOk invalidData fs0 =
      (TaskOutcome.retryLater
        (PyExc.valueError
          "Missing or empty required fields: college, certificate_id, issued_at, topic"),
       fs0) := by
  decide

/-- C2 as amended: a validation error is caught by the blanket except handler
and retried like any other failure while `self.request.retries < max_retries`;
only when retries are exhausted is it surfaced, wrapped in the terminal
`CertificateGenerationError` — it is neither non-retryable nor surfaced
immediately. -/
theorem validation_error_retry_policy :
    ∀ (env : Env) (data : PyDict) (fs : FS) (e : PyExc),
      validate_data data = Except.error e →
      (∀ r : Nat, r < max_retries →
        generate_certificate r env data fs = (TaskOutcome.retryLater e, fs)) ∧
      (∀ r : Nat, ¬ r < max_retries →
        generate_certificate r env data fs =
          (TaskOutcome.failed
            ("Failed to generate certificate after 3 attempts: " ++ pyExcStr e), fs)) := by
  intro env data fs e h
  constructor
  · intro r hr
    simp [generate_certificate, generate_certificate_body, h, hr]
  · intro r hr
    simp [generate_certificate, generate_certificate_body, h, hr]

/-- C2 witness: the invalid request at retries = 3 ends FAILED with the
wrapped validation message. -/
theorem validation_error_retry_policy_witness :
    generate_certificate 3 envOk invalidData fs0 =
      (TaskOutcome.failed
        ("Failed to generate certificate after 3 attempts: " ++
          pyExcStr (PyExc.valueError
            "Missing or empty required fields: college, certificate_id, issued_at, topic")),
       fs0) :=
  (validation_error_retry_policy envOk invalidData fs0
    (PyExc.valueError
      "Missing or empty required fields: college, certificate_id, issued_at, topic")
    (by decide)).2 3 (by decide)

/-- C4: when one or more required fields are absent or empty, `validate_data`
raises one `ValueError` whose message lists exactly the missing-or-empty
required fields, and a field is in that list precisely when it is a required
field that is absent from the dict or bound to a falsy (empty) value — every
such field is named, not just the first. -/
theorem validate_data_names_all_missing :
    ∀ data : PyDict, missingFields data ≠ [] →
      validate_data data =
        Except.error (PyExc.valueError
          ("Missing or empty required fields: " ++
            String.intercalate ", " (missingFields data))) ∧
      ∀ k : String,
        k ∈ missingFields data ↔
          k ∈ REQUIRED_KEYS ∧
            (pyLookup data k = none ∨
              ∃ v : PyVal, pyLookup data k = some v ∧ v.truthy = false) := by
  intro data h
  constructor
  · have he : (missingFields data).isEmpty = false := by
      cases hm : missingFields data with
      | nil => exact absurd hm h
      | cons a t => rfl
    simp [validate_data, he]
  · intro k
    simp only [missingFields, List.mem_filter, missingOrEmpty]
    constructor
    · rintro ⟨hk, hm⟩
      refine ⟨hk, ?_⟩
      cases hp : pyLookup data k with
      | none => exact Or.inl rfl
      | some v =>
        rw [hp] at hm
        exact Or.inr ⟨v, rfl, by simpa using hm⟩
    · rintro ⟨hk, hnone | ⟨v, hv, hfalse⟩⟩
      · exact ⟨hk, by rw [hnone]⟩
      · exact ⟨hk, by rw [hv]; simpa using hfalse⟩

/-- C4 witness: a request with only `user_name` present is rejected with the
message naming all four other required fields. -/
theorem validate_data_names_all_missing_witness :
    validate_data invalidData =
      Except.error (PyExc.valueError
        ("Missing or empty required fields: " ++
          String.intercalate ", " (missingFields invalidData))) :=
  (validate_data_names_all_missing invalidData (by decide)).1

/-- C5 counterexample: a request whose `certificate_id` is "ab" — shorter
than 5 characters, hence invalid per `validate_certificate_id` — passes
`validate_data` unchanged: request validation never rejects it, because
`validate_data` checks `certificate_id` only for presence and truthiness and
never calls `validate_certificate_id`. -/
theorem certificate_id_not_checked_cex :
    validate_data badIdData = Except.ok badIdData ∧
    validate_certificate_id "ab" = false := by
  decide

/-- C5 as amended: `validate_certificate_id` (src/utils.py) does classify as
invalid every ASCII certificate id that is shorter than 5 characters or
contains a character outside alphanumerics, hyphen and underscore — but that
helper is never invoked by `validate_data`, so such requests pass request
validation (see the counterexample, stated here as the second conjunct). -/
theorem validate_certificate_id_rejects :
    (∀ cid : String, (∀ c ∈ cid.toList, c.toNat < 128) →
      (cid.length < 5 ∨ ∃ c ∈ cid.toList, isIdChar c = false) →
      validate_certificate_id cid = false) ∧
    validate_data badIdData = Except.ok badIdData := by
  constructor
  · intro cid hascii hbad
    unfold validate_certificate_id
    rcases hbad with hlen | ⟨c, hc, hbadc⟩
    · rw [if_pos (Or.inr hlen)]
    · by_cases hemp : cid = "" ∨ cid.length < 5
      · rw [if_pos hemp]
      · rw [if_neg hemp]
        have key : ∀ n : Nat, n < 128 → isIdChar (Char.ofNat n) = false →
            decide (Char.toUpper (Char.ofNat n) ∈ allowedIdChars) = false := by
          decide
        have hasc : c.toNat < 128 := hascii c hc
        have hkey := key c.toNat hasc (by rw [Char.ofNat_toNat]; exact hbadc)
        rw [Char.ofNat_toNat] at hkey
        apply List.all_eq_false.mpr
        refine ⟨Char.toUpper c, List.mem_map_of_mem Char.toUpper hc, ?_⟩
        simp [hkey]
  · decide

/-- C5 witness: a 5-character id containing `@` is classified invalid. -/
theorem validate_certificate_id_rejects_witness :
    validate_certificate_id "ab@de" = false :=
  validate_certificate_id_rejects.1 "ab@de" (by decide) (by decide)

/-- C10: whenever `validate_data` succeeds it returns the input dict itself —
no field is trimmed, normalized or removed, and unvalidated optional fields
pass through untouched. -/
theorem validate_data_returns_input :
    ∀ (data r : PyDict), validate_data data = Except.ok r → r = data := by
  intro data r h
  unfold validate_data at h
  repeat' split at h
  all_goals simp_all

/-- C10 witness: the valid request round-trips through `validate_data`. -/
theorem validate_data_returns_input_witness :
    validate_data validData = Except.ok validData ∧ validData = validData :=
  ⟨by decide, validate_data_returns_input validData validData (by decide)⟩

lemma sweepCerts_all_ok (cutoff : Int) (l : List StoredFile) :
    sweepCerts (fun _ => true) cutoff l =
      (Except.ok ((l.filter (fun f => decide (f.mtime < cutoff))).length,
                  sumBytes (l.filter (fun f => decide (f.mtime < cutoff)))),
       l.filter (fun f => !decide (f.mtime < cutoff))) := by
  induction l with
  | nil => rfl
  | cons f fs ih =>
    by_cases hf : f.mtime < cutoff
    · simp [sweepCerts, hf, ih, sumBytes, Nat.add_comm]
    · simp [sweepCerts, hf, ih]

lemma sweepTemp_all_ok (cutoff : Int) (l : List StoredFile) :
    sweepTemp (fun _ => true) cutoff l =
      (Except.ok (), l.filter (fun f => !decide (f.mtime < cutoff))) := by
  induction l with
  | nil => rfl
  | cons f fs ih =>
    by_cases hf : f.mtime < cutoff
    · simp [sweepTemp, hf, ih]
    · simp [sweepTemp, hf, ih]

/-- C6: with every deletion succeeding, `cleanup_old_certificates` removes
exactly the certificate files whose modification time is strictly before
`now - days_old` days, reports their count as `files_removed` (and their
total size), and leaves exactly the younger files; in particular with
artifacts aged 10 and 40 days and a 30-day cutoff it removes only the 40-day
artifact and reports `files_removed = 1`. -/
theorem cleanup_old_certificates_exact :
    (∀ (now days : Int) (certFiles tempFiles : List StoredFile),
      cleanup_old_certificates (fun _ => true) now days certFiles tempFiles =
        (Except.ok
          ⟨(certFiles.filter (fun f => decide (f.mtime < now - days * 86400))).length,
           sumBytes (certFiles.filter (fun f => decide (f.mtime < now - days * 86400)))⟩,
         certFiles.filter (fun f => !decide (f.mtime < now - days * 86400)),
         tempFiles.filter (fun f => !decide (f.mtime < now - days * 86400)))) ∧
    cleanup_old_certificates (fun _ => true) 8640000 30 [fileA, fileB] [] =
      (Except.ok ⟨1, 200⟩, [fileA], []) := by
  constructor
  · intro now days certFiles tempFiles
    simp [cleanup_old_certificates, sweepCerts_all_ok, sweepTemp_all_ok]
  · decide

/-- C7 counterexample: two certificates are both 40 days old with a 30-day
cutoff, but deleting the first (`b.pdf`) raises: the sweep aborts with the
propagated `OSError`, the second eligible file (`c.pdf`) is never examined or
deleted, and no statistics are returned — the code, unlike the claim, is not
partial-failure tolerant. -/
theorem cleanup_error_aborts_cex :
    cleanup_old_certificates (fun n => !(n == "b.pdf")) 8640000 30 [fileB, fileC] [] =
      (Except.error "OSError: b.pdf", [fileB, fileC], []) := by
  decide

lemma sweepCerts_ok_iff (delOk : String → Bool) (cutoff : Int) (l : List StoredFile) :
    exceptOk (sweepCerts delOk cutoff l).1 =
      l.all (fun f => !decide (f.mtime < cutoff) || delOk f.name) := by
  induction l with
  | nil => rfl
  | cons f fs ih =>
    by_cases hf : f.mtime < cutoff
    · by_cases hd : delOk f.name
      · cases hs : sweepCerts delOk cutoff fs with
        | mk r rem =>
          rw [hs] at ih
          cases r with
          | ok nb =>
            obtain ⟨n, b⟩ := nb
            simpa [sweepCerts, hf, hd, hs, exceptOk, List.all_cons] using ih
          | error e =>
            simpa [sweepCerts, hf, hd, hs, exceptOk, List.all_cons] using ih
      · simp [sweepCerts, hf, hd, exceptOk, List.all_cons]
    · cases hs : sweepCerts delOk cutoff fs with
      | mk r rem =>
        rw [hs] at ih
        simpa [sweepCerts, hf, hs, exceptOk, List.all_cons] using ih

lemma sweepTemp_ok_iff (delOk : String → Bool) (cutoff : Int) (l : List StoredFile) :
    exceptOk (sweepTemp delOk cutoff l).1 =
      l.all (fun f => !decide (f.mtime < cutoff) || delOk f.name) := by
  induction l with
  | nil => rfl
  | cons f fs ih =>
    by_cases hf : f.mtime < cutoff
    · by_cases hd : delOk f.name
      · simpa [sweepTemp, hf, hd, exceptOk, List.all_cons] using ih
      · simp [sweepTemp, hf, hd, exceptOk, List.all_cons]
    · cases hs : sweepTemp delOk cutoff fs with
      | mk r rem =>
        rw [hs] at ih
        simpa [sweepTemp, hf, hs, exceptOk, List.all_cons] using ih

/-- C7 as amended: a deletion error aborts the `cleanup_old_certificates`
sweep — it returns statistics exactly when every eligible file in both stores
deletes successfully, the error propagating otherwise (see the
counterexample). Only the `cleanup_temp_files` helper in src/utils.py is
partial-failure tolerant: it always completes, removing precisely the
eligible regular files whose deletion succeeds, regardless of other files'
failures. -/
theorem cleanup_error_tolerance :
    (∀ (delOk : String → Bool) (now days : Int) (certFiles tempFiles : List StoredFile),
      exceptOk (cleanup_old_certificates delOk now days certFiles tempFiles).1 =
        (certFiles.all (fun f => !decide (f.mtime < now - days * 86400) || delOk f.name) &&
         tempFiles.all (fun f => !decide (f.mtime < now - days * 86400) || delOk f.name))) ∧
    (∀ (delOk : String → Bool) (now hours : Int) (files : List StoredFile),
      cleanup_temp_files delOk now hours files =
        files.filter
          (fun f => !(f.isFile && decide (f.mtime < now - hours * 3600) && delOk f.name))) := by
  constructor
  · intro delOk now days cf tf
    have h1 := sweepCerts_ok_iff delOk (now - days * 86400) cf
    have h2 := sweepTemp_ok_iff delOk (now - days * 86400) tf
    unfold cleanup_old_certificates
    cases hc : sweepCerts delOk (now - days * 86400) cf with
    | mk r remC =>
      rw [hc] at h1
      cases r with
      | error e =>
        dsimp only [exceptOk] at h1 ⊢
        rw [← h1, Bool.false_and]
      | ok nb =>
        obtain ⟨n, b⟩ := nb
        dsimp only [exceptOk] at h1
        cases ht : sweepTemp delOk (now - days * 86400) tf with
        | mk r2 remT =>
          rw [ht] at h2
          cases r2 with
          | error e =>
            dsimp only [exceptOk] at h2 ⊢
            rw [← h1, ← h2, Bool.true_and]
          | ok u =>
            dsimp only [exceptOk] at h2 ⊢
            rw [← h1, ← h2, Bool.true_and]
  · intro delOk now hours files
    induction files with
    | nil => rfl
    | cons f fs ih =>
      by_cases hf : f.isFile = true
      · by_cases ht : f.mtime < now - hours * 3600
        · by_cases hd : delOk f.name = true
          · simp [cleanup_temp_files, hf, ht, hd, ih, List.filter_cons]
          · simp only [Bool.not_eq_true] at hd
            simp [cleanup_temp_files, hf, ht, hd, ih, List.filter_cons]
        · simp [cleanup_temp_files, hf, ht, ih, List.filter_cons]
      · simp only [Bool.not_eq_true] at hf
        simp [cleanup_temp_files, hf, ih, List.filter_cons]

/-- C9 counterexample: the ImageMagick command carries the fixed parameters
`-density 200 -quality 85 -compress jpeg`, while the FFmpeg fallback command
for the same job carries none of them — the output settings differ according
to which strategy succeeded. -/
theorem ffmpeg_no_quality_params_cex :
    ("-density" ∈ img_to_pdf_cmd "temp/TEST-0001_temp.jpg" "certificates/TEST-0001.pdf" ∧
     "-quality" ∈ img_to_pdf_cmd "temp/TEST-0001_temp.jpg" "certificates/TEST-0001.pdf" ∧
     "-compress" ∈ img_to_pdf_cmd "temp/TEST-0001_temp.jpg" "certificates/TEST-0001.pdf") ∧
    ("-density" ∉ ffmpeg_pdf_cmd "temp/TEST-0001_temp.jpg" "certificates/TEST-0001.pdf" ∧
     "-quality" ∉ ffmpeg_pdf_cmd "temp/TEST-0001_temp.jpg" "certificates/TEST-0001.pdf" ∧
     "-compress" ∉ ffmpeg_pdf_cmd "temp/TEST-0001_temp.jpg" "certificates/TEST-0001.pdf") := by
  decide

lemma not_mem_ffmpeg_pdf_cmd (a t o : String) (h1 : a ≠ "ffmpeg") (h2 : a ≠ "-y")
    (h3 : a ≠ "-i") (h4 : a ≠ t) (h5 : a ≠ "-f") (h6 : a ≠ "pdf") (h7 : a ≠ o) :
    a ∉ ffmpeg_pdf_cmd t o := by
  intro hmem
  simp [ffmpeg_pdf_cmd, h1, h2, h3, h4, h5, h6, h7] at hmem

/-- C9 as amended: only the ImageMagick strategy is invoked with the fixed
density and quality-compression parameters — its command always contains
`-density`, `-quality` and `-compress` — whereas the FFmpeg fallback command
contains none of these flags (for any input/output paths that are not
themselves one of the flags), so the output settings do depend on which
strategy succeeded. -/
theorem conversion_params_by_strategy :
    ∀ t o : String,
      t ≠ "-density" → o ≠ "-density" → t ≠ "-quality" → o ≠ "-quality" →
      t ≠ "-compress" → o ≠ "-compress" →
      ("-density" ∈ img_to_pdf_cmd t o ∧ "-quality" ∈ img_to_pdf_cmd t o ∧
        "-compress" ∈ img_to_pdf_cmd t o) ∧
      ("-density" ∉ ffmpeg_pdf_cmd t o ∧ "-quality" ∉ ffmpeg_pdf_cmd t o ∧
        "-compress" ∉ ffmpeg_pdf_cmd t o) := by
  intro t o h1 h2 h3 h4 h5 h6
  refine ⟨⟨?_, ?_, ?_⟩, ?_, ?_, ?_⟩
  · simp [img_to_pdf_cmd]
  · simp [img_to_pdf_cmd]
  · simp [img_to_pdf_cmd]
  · exact not_mem_ffmpeg_pdf_cmd _ t o (by decide) (by decide) (by decide)
      (Ne.symm h1) (by decide) (by decide) (Ne.symm h2)
  · exact not_mem_ffmpeg_pdf_cmd _ t o (by decide) (by decide) (by decide)
      (Ne.symm h3) (by decide) (by decide) (Ne.symm h4)
  · exact not_mem_ffmpeg_pdf_cmd _ t o (by decide) (by decide) (by decide)
      (Ne.symm h5) (by decide) (by decide) (Ne.symm h6)

/-- C9 witness: at the concrete temp and output paths "t.jpg" and "o.pdf". -/
theorem conversion_params_by_strategy_witness :
    ("-density" ∈ img_to_pdf_cmd "t.jpg" "o.pdf" ∧
     "-quality" ∈ img_to_pdf_cmd "t.jpg" "o.pdf" ∧
     "-compress" ∈ img_to_pdf_cmd "t.jpg" "o.pdf") ∧
    ("-density" ∉ ffmpeg_pdf_cmd "t.jpg" "o.pdf" ∧
     "-quality" ∉ ffmpeg_pdf_cmd "t.jpg" "o.pdf" ∧
     "-compress" ∉ ffmpeg_pdf_cmd "t.jpg" "o.pdf") :=
  conversion_params_by_strategy "t.jpg" "o.pdf" (by decide) (by decide) (by decide)
    (by decide) (by decide) (by decide)
